import Mathlib

/-!
# aws-go-server: the album service (`main.go`) and the counter service (`main-backup.go`)

Both programs are gin HTTP servers in front of one MySQL table.  Every handler
performs at most one SQL statement and maps its outcome to a status code and a
body.  The embedding below passes the table explicitly: a handler is a function
from the environment of the call (what the random sources and the database
connection do during this call), the request and the table to the response
written and the table afterwards.  The tables follow the CREATE TABLE statements
of the programs: the UNIQUE and PRIMARY KEY indexes, the AUTO_INCREMENT counter and
the column type JSON of `albums.profile`, which validates the text bound to it and
prints the stored document in its own form.
-/

namespace AwsGoServer

/-! ## Go values -/

/-- A Go byte slice, and the content of a Go string that is treated as opaque bytes. -/
abbrev Bytes := List UInt8

/-- A Go `error` value.  `errNoRows` is the sentinel `sql.ErrNoRows`, which the
code recognises by identity; `duplicateEntry` is the MySQL error 1062 raised by the
named UNIQUE or PRIMARY KEY index; `invalidJSON` is the MySQL error 3140 raised by
the named column of type JSON; `other` is any other error, carrying its text. -/
inductive GoError where
  | errNoRows
  | duplicateEntry (key index : String)
  | invalidJSON (column : String)
  | other (msg : String)
  deriving DecidableEq, Repr

/-- The method `Error()` of an error value: its text.  For error 3140 the server
also names what its parser met and where, which is left out here; no handler of
`main.go` reads the text of an error. -/
def GoError.Error : GoError → String
  | .errNoRows => "sql: no rows in result set"
  | .duplicateEntry key index =>
    "Error 1062 (23000): Duplicate entry \x27" ++ key ++ "\x27 for key \x27" ++ index ++ "\x27"
  | .invalidJSON column =>
    "Error 3140 (22032): Invalid JSON text in value for column \x27" ++ column ++ "\x27."
  | .other msg => msg

/-- The conversion `string(n)` of Go for an integer `n ≥ 0`: the UTF-8 encoding of
the code point `n`, and U+FFFD when `n` is not a valid code point (a surrogate, or
above U+10FFFF).  It is not the decimal representation of `n`. -/
def stringOfInt (n : Nat) : String :=
  if n.isValidChar then String.singleton (Char.ofNat n) else String.singleton (Char.ofNat 0xFFFD)

/-- The function `strconv.Itoa` on a non-negative integer: its decimal representation. -/
def decimalString (n : Nat) : String := Nat.repr n

/-! ## github.com/google/uuid -/

/-- A UUID: sixteen bytes. -/
def UUID := Fin 16 → UInt8

/-- One character of the table `0123456789abcdef` used by `encoding/hex`. -/
def hexDigit (n : Nat) : Char :=
  if n < 10 then Char.ofNat (48 + n) else Char.ofNat (87 + n)

/-- The two lower-case hexadecimal digits of a byte, as `hex.Encode` writes them. -/
def hexByte (b : UInt8) : List Char :=
  [hexDigit (b.toNat / 16), hexDigit (b.toNat % 16)]

/-- The call `hex.Encode` on the bytes of the UUID at the given positions. -/
def hexEncode (u : UUID) (positions : List (Fin 16)) : List Char :=
  positions.flatMap (fun i => hexByte (u i))

/-- The method `UUID.String()`: the form `xxxxxxxx-xxxx-xxxx-xxxx-xxxxxxxxxxxx`. -/
def UUID.String (u : UUID) : String :=
  String.mk (hexEncode u [0, 1, 2, 3] ++ '-' :: hexEncode u [4, 5] ++ '-' :: hexEncode u [6, 7]
    ++ '-' :: hexEncode u [8, 9] ++ '-' :: hexEncode u [10, 11, 12, 13, 14, 15])

/-! ## Requests and responses -/

/-- A `multipart.File` handed out by `FormFile`: what `io.ReadAll` returns on it. -/
structure MultipartFile where
  readAll : Except GoError Bytes

/-- The part of a `gin.Context` the handlers read: `c.Request.FormFile(name)`,
`c.PostForm(key)` (the empty string when the field is absent) and `c.Param(key)`
(the empty string when there is no such path parameter). -/
structure Request where
  formFile : String → Except GoError MultipartFile
  postForm : String → Bytes
  param : String → String

/-- A JSON value in a response body: the handlers only write strings and integers. -/
inductive JSONValue where
  | str (s : String)
  | int (n : Int)
  deriving DecidableEq, Repr

/-- A response body: a JSON object written by `c.JSON`, given by its members, or
the bytes written by `c.Data`. -/
inductive Body where
  | json (members : List (String × JSONValue))
  | data (bytes : Bytes)
  deriving DecidableEq, Repr

/-- The response written to the client. -/
structure Response where
  status : Nat
  contentType : String
  body : Body
  deriving DecidableEq, Repr

/-- The call `c.JSON(code, obj)`: gin sets the JSON content type with a charset. -/
def cJSON (code : Nat) (members : List (String × JSONValue)) : Response :=
  ⟨code, "application/json; charset=utf-8", .json members⟩

/-- The call `c.Data(code, contentType, data)`. -/
def cData (code : Nat) (contentType : String) (data : Bytes) : Response :=
  ⟨code, contentType, .data data⟩

/-- The value `gin.H{"error": msg}`. -/
def errorBody (msg : String) : List (String × JSONValue) := [("error", .str msg)]

/-! ## The MySQL column type `JSON` -/

/-- JSON white space: space, tab, line feed, carriage return. -/
def isWS (b : UInt8) : Bool := b == 0x20 || b == 0x09 || b == 0x0A || b == 0x0D

/-- A decimal digit. -/
def isDigit (b : UInt8) : Bool := 0x30 ≤ b && b ≤ 0x39

/-- The input without its leading white space. -/
def skipWS : Bytes → Bytes
  | [] => []
  | b :: rest => if isWS b then skipWS rest else b :: rest

/-- The decimal digits at the head of the input, and what follows them. -/
def takeDigits : Bytes → Bytes × Bytes
  | [] => ([], [])
  | b :: rest =>
    if isDigit b then ((b :: (takeDigits rest).1), (takeDigits rest).2) else ([], b :: rest)

/-- The value of a string of decimal digits. -/
def digitsValue (digits : Bytes) : Nat :=
  digits.foldl (fun n b => 10 * n + (b.toNat - 0x30)) 0

/-- The integer part of a number: `0`, or a digit from 1 to 9 followed by digits. -/
def scanIntPart : Bytes → Option (Bytes × Bytes)
  | [] => none
  | b :: rest =>
    if b == 0x30 then some ([b], rest)
    else if isDigit b then some (b :: (takeDigits rest).1, (takeDigits rest).2)
    else none

/-- The optional fraction of a number: a point followed by at least one digit. -/
def scanFraction : Bytes → Option (Bytes × Bytes)
  | [] => some ([], [])
  | b :: rest =>
    if b == 0x2E then
      if (takeDigits rest).1.isEmpty then none
      else some (b :: (takeDigits rest).1, (takeDigits rest).2)
    else some ([], b :: rest)

/-- The digits of an exponent, after its optional sign: at least one. -/
def scanExponentDigits (sign : Bytes) (input : Bytes) : Option (Bytes × Bytes) :=
  if (takeDigits input).1.isEmpty then none
  else some (sign ++ (takeDigits input).1, (takeDigits input).2)

/-- The optional exponent of a number: `e` or `E`, an optional sign, digits. -/
def scanExponent : Bytes → Option (Bytes × Bytes)
  | [] => some ([], [])
  | b :: rest =>
    if b == 0x65 || b == 0x45 then
      match rest with
      | [] => none
      | s :: rest' =>
        if s == 0x2B || s == 0x2D then scanExponentDigits [b, s] rest'
        else scanExponentDigits [b] (s :: rest')
    else some ([], b :: rest)

/-- The decimal digits of a natural number, as bytes. -/
def decimalBytes (n : Nat) : Bytes := (Nat.toDigits 10 n).map (fun ch => UInt8.ofNat ch.toNat)

/-- A JSON number at the head of the input, as the server prints it after storing it,
and what follows it.  A number written without fraction and exponent that lies
between -2^63 and 2^64-1 is held as an integer and printed in decimal; any other
number is held as a DOUBLE and printed as `formatDouble` says, which is `none` for
a number too big for a DOUBLE (the parser refuses it). -/
def scanNumber (formatDouble : Bytes → Option Bytes) (input : Bytes) : Option (Bytes × Bytes) :=
  let negative := input.head? == some 0x2D
  let unsigned := if negative then input.tail else input
  match scanIntPart unsigned with
  | none => none
  | some (intPart, afterInt) =>
    match scanFraction afterInt with
    | none => none
    | some (fraction, afterFraction) =>
      match scanExponent afterFraction with
      | none => none
      | some (exponent, rest) =>
        let magnitude := digitsValue intPart
        if fraction.isEmpty && exponent.isEmpty
            && (if negative then magnitude ≤ 2 ^ 63 else magnitude < 2 ^ 64) then
          if negative && magnitude != 0 then some (0x2D :: decimalBytes magnitude, rest)
          else some (decimalBytes magnitude, rest)
        else
          match formatDouble ((if negative then [0x2D] else []) ++ intPart ++ fraction ++ exponent) with
          | none => none
          | some text => some (text, rest)

/-- The value of a hexadecimal digit. -/
def hexValue (b : UInt8) : Option Nat :=
  if isDigit b then some (b.toNat - 0x30)
  else if 0x61 ≤ b && b ≤ 0x66 then some (b.toNat - 0x61 + 10)
  else if 0x41 ≤ b && b ≤ 0x46 then some (b.toNat - 0x41 + 10)
  else none

/-- The four hexadecimal digits of a `\u` escape. -/
def scanHex4 : Bytes → Option (Nat × Bytes)
  | a :: b :: c :: d :: rest =>
    match hexValue a, hexValue b, hexValue c, hexValue d with
    | some x, some y, some z, some w => some (4096 * x + 256 * y + 16 * z + w, rest)
    | _, _, _, _ => none
  | _ => none

/-- The UTF-8 encoding of a code point. -/
def utf8Encode (cp : Nat) : Bytes :=
  if cp < 0x80 then [UInt8.ofNat cp]
  else if cp < 0x800 then [UInt8.ofNat (0xC0 + cp / 64), UInt8.ofNat (0x80 + cp % 64)]
  else if cp < 0x10000 then
    [UInt8.ofNat (0xE0 + cp / 4096), UInt8.ofNat (0x80 + cp / 64 % 64), UInt8.ofNat (0x80 + cp % 64)]
  else
    [UInt8.ofNat (0xF0 + cp / 262144), UInt8.ofNat (0x80 + cp / 4096 % 64),
      UInt8.ofNat (0x80 + cp / 64 % 64), UInt8.ofNat (0x80 + cp % 64)]

/-- A continuation byte of UTF-8. -/
def isContinuation (b : UInt8) : Bool := 0x80 ≤ b && b ≤ 0xBF

/-- A character of two to four bytes at the head of the input that is well formed in
the character set utf8mb4 of the connection, and what follows it. -/
def scanMultibyte : Bytes → Option (Bytes × Bytes)
  | a :: b :: rest =>
    if 0xC2 ≤ a && a ≤ 0xDF then
      if isContinuation b then some ([a, b], rest) else none
    else
      match rest with
      | [] => none
      | c :: rest' =>
        if 0xE0 ≤ a && a ≤ 0xEF then
          if isContinuation b && isContinuation c && (0xE1 ≤ a || 0xA0 ≤ b) then
            some ([a, b, c], rest')
          else none
        else
          match rest' with
          | [] => none
          | d :: rest'' =>
            if 0xF0 ≤ a && a ≤ 0xF4 && isContinuation b && isContinuation c && isContinuation d
                && (0xF1 ≤ a || 0x90 ≤ b) && (a ≤ 0xF3 || b ≤ 0x8F) then
              some ([a, b, c, d], rest'')
            else none
  | _ => none

/-- What an escape sequence stands for, given the input after the backslash. -/
def scanEscape : Bytes → Option (Bytes × Bytes)
  | [] => none
  | e :: rest =>
    if e == 0x22 || e == 0x5C || e == 0x2F then some ([e], rest)
    else if e == 0x62 then some ([0x08], rest)
    else if e == 0x66 then some ([0x0C], rest)
    else if e == 0x6E then some ([0x0A], rest)
    else if e == 0x72 then some ([0x0D], rest)
    else if e == 0x74 then some ([0x09], rest)
    else if e == 0x75 then
      match scanHex4 rest with
      | none => none
      | some (hi, rest') =>
        if 0xD800 ≤ hi && hi ≤ 0xDBFF then
          match rest' with
          | 0x5C :: 0x75 :: rest'' =>
            match scanHex4 rest'' with
            | none => none
            | some (lo, rest''') =>
              if 0xDC00 ≤ lo && lo ≤ 0xDFFF then
                some (utf8Encode (0x10000 + (hi - 0xD800) * 1024 + (lo - 0xDC00)), rest''')
              else none
          | _ => none
        else if 0xDC00 ≤ hi && hi ≤ 0xDFFF then none
        else some (utf8Encode hi, rest')
    else none

/-- The content of a JSON string whose opening quote has been read, with its escape
sequences replaced by what they stand for, and what follows the closing quote. -/
def scanString : Nat → Bytes → Bytes → Option (Bytes × Bytes)
  | 0, _, _ => none
  | _ + 1, [], _ => none
  | fuel + 1, b :: rest, content =>
    if b == 0x22 then some (content, rest)
    else if b == 0x5C then
      match scanEscape rest with
      | none => none
      | some (bytes, rest') => scanString fuel rest' (content ++ bytes)
    else if b < 0x20 then none
    else if b < 0x80 then scanString fuel rest (content ++ [b])
    else
      match scanMultibyte (b :: rest) with
      | none => none
      | some (bytes, rest') => scanString fuel rest' (content ++ bytes)

/-- A lower-case hexadecimal digit, as a byte. -/
def hexDigitByte (n : Nat) : UInt8 := if n < 10 then UInt8.ofNat (0x30 + n) else UInt8.ofNat (0x57 + n)

/-- One byte of a string as the server prints it between quotes. -/
def quoteByte (b : UInt8) : Bytes :=
  if b == 0x22 then [0x5C, 0x22]
  else if b == 0x5C then [0x5C, 0x5C]
  else if b == 0x08 then [0x5C, 0x62]
  else if b == 0x0C then [0x5C, 0x66]
  else if b == 0x0A then [0x5C, 0x6E]
  else if b == 0x0D then [0x5C, 0x72]
  else if b == 0x09 then [0x5C, 0x74]
  else if b < 0x20 then
    [0x5C, 0x75, 0x30, 0x30, hexDigitByte (b.toNat / 16), hexDigitByte (b.toNat % 16)]
  else [b]

/-- A string as the server prints it: between quotes, with the quote, the backslash
and the control characters escaped. -/
def quoteString (content : Bytes) : Bytes :=
  0x22 :: content.flatMap quoteByte ++ [0x22]

/-- The bytewise order of two strings of the same length. -/
def bytesLT : Bytes → Bytes → Bool
  | a :: as, b :: bs => a < b || (a == b && bytesLT as bs)
  | [], _ :: _ => true
  | _, [] => false

/-- The order in which the server keeps the keys of an object: shorter keys first,
keys of one length bytewise. -/
def keyLT (a b : Bytes) : Bool :=
  a.length < b.length || (a.length == b.length && bytesLT a b)

/-- A member put into the members of an object, which are kept in the order of
their keys; a member with the same key is replaced (the last duplicate wins). -/
def insertMember (key value : Bytes) : List (Bytes × Bytes) → List (Bytes × Bytes)
  | [] => [(key, value)]
  | (k, v) :: members =>
    if key == k then (key, value) :: members
    else if keyLT key k then (key, value) :: (k, v) :: members
    else (k, v) :: insertMember key value members

/-- The items of an array or the members of an object, separated by a comma and a
space. -/
def joinItems : List Bytes → Bytes
  | [] => []
  | [item] => item
  | item :: items => item ++ [0x2C, 0x20] ++ joinItems items

/-- An array as the server prints it. -/
def printArray (items : List Bytes) : Bytes := 0x5B :: joinItems items ++ [0x5D]

/-- An object as the server prints it. -/
def printObject (members : List (Bytes × Bytes)) : Bytes :=
  0x7B :: joinItems (members.map (fun m => quoteString m.1 ++ [0x3A, 0x20] ++ m.2)) ++ [0x7D]

/-- The items of an array after its first, up to the closing bracket.  `value` reads
one value and yields its printed form. -/
def scanItems (value : Bytes → Option (Bytes × Bytes)) :
    Nat → Bytes → List Bytes → Option (List Bytes × Bytes)
  | 0, _, _ => none
  | fuel + 1, input, items =>
    match value input with
    | none => none
    | some (item, rest) =>
      match skipWS rest with
      | [] => none
      | b :: rest' =>
        if b == 0x2C then scanItems value fuel rest' (items ++ [item])
        else if b == 0x5D then some (items ++ [item], rest')
        else none

/-- The members of an object up to the closing brace. -/
def scanMembers (value : Bytes → Option (Bytes × Bytes)) :
    Nat → Bytes → List (Bytes × Bytes) → Option (List (Bytes × Bytes) × Bytes)
  | 0, _, _ => none
  | fuel + 1, input, members =>
    match skipWS input with
    | [] => none
    | q :: afterQuote =>
      if q == 0x22 then
        match scanString (afterQuote.length + 1) afterQuote [] with
        | none => none
        | some (key, afterKey) =>
          match skipWS afterKey with
          | [] => none
          | colon :: afterColon =>
            if colon == 0x3A then
              match value afterColon with
              | none => none
              | some (item, rest) =>
                match skipWS rest with
                | [] => none
                | b :: rest' =>
                  if b == 0x2C then scanMembers value fuel rest' (insertMember key item members)
                  else if b == 0x7D then some (insertMember key item members, rest')
                  else none
            else none
      else none

/-- The input after a literal name, when the input starts with it. -/
def scanLiteral (name : Bytes) (input : Bytes) : Option Bytes :=
  if input.take name.length == name then some (input.drop name.length) else none

/-- One JSON value at the head of the input, after white space, in the form in which
the server prints it, and what follows it.  `room` is one more than the number of
arrays and objects that may still be opened inside one another: the server refuses
a document nested more than 100 deep. -/
def scanValue (formatDouble : Bytes → Option Bytes) : Nat → Bytes → Option (Bytes × Bytes)
  | 0, _ => none
  | room + 1, input =>
    match skipWS input with
    | [] => none
    | b :: rest =>
      if b == 0x5B then
        if room = 0 then none
        else
          match skipWS rest with
          | [] => none
          | c :: rest' =>
            if c == 0x5D then some (printArray [], rest')
            else
              match scanItems (scanValue formatDouble room) (rest.length + 1) (c :: rest') [] with
              | none => none
              | some (items, after) => some (printArray items, after)
      else if b == 0x7B then
        if room = 0 then none
        else
          match skipWS rest with
          | [] => none
          | c :: rest' =>
            if c == 0x7D then some (printObject [], rest')
            else
              match scanMembers (scanValue formatDouble room) (rest.length + 1) (c :: rest') [] with
              | none => none
              | some (members, after) => some (printObject members, after)
      else if b == 0x22 then
        match scanString (rest.length + 1) rest [] with
        | none => none
        | some (content, after) => some (quoteString content, after)
      else if b == 0x74 then (scanLiteral [0x74, 0x72, 0x75, 0x65] (b :: rest)).map
        (fun after => ([0x74, 0x72, 0x75, 0x65], after))
      else if b == 0x66 then (scanLiteral [0x66, 0x61, 0x6C, 0x73, 0x65] (b :: rest)).map
        (fun after => ([0x66, 0x61, 0x6C, 0x73, 0x65], after))
      else if b == 0x6E then (scanLiteral [0x6E, 0x75, 0x6C, 0x6C] (b :: rest)).map
        (fun after => ([0x6E, 0x75, 0x6C, 0x6C], after))
      else scanNumber formatDouble (b :: rest)

/-- What the column `profile JSON` makes of a text bound to it: `none` when the
server refuses the text as invalid JSON (the empty text included), otherwise the
text a later SELECT of the column returns for the stored document. -/
def mysqlJSON (formatDouble : Bytes → Option Bytes) (text : Bytes) : Option Bytes :=
  match scanValue formatDouble 101 text with
  | none => none
  | some (printed, rest) => if (skipWS rest).isEmpty then some printed else none

/-- A server that prints a DOUBLE with the digits it was written with, as MySQL does
for a number that is already in its shortest form, such as `1.5`. -/
def formatDoubleAsWritten : Bytes → Option Bytes := some

/-! ## The album service, `main.go` -/

/-- One row of the table `albums (albumID VARCHAR(36) NOT NULL UNIQUE, image LONGBLOB,
profile JSON)`.  Rows are only created by `doPost`, which binds all three columns.
The field `profile` is the JSON document of the row, held as the text the server
prints for it when the column is selected. -/
structure AlbumRow where
  albumID : String
  image : Bytes
  profile : Bytes
  deriving DecidableEq, Repr

/-- The album store: the rows of the table `albums`, oldest first. -/
abbrev Albums := List AlbumRow

/-- What lies outside the request and the table during one call of a handler of the
album service: the value `uuid.New()` returns, the error, if any, with which the
connection or the server fails the SQL statement of this call, and the text the
server prints for the DOUBLE that a number of a JSON document denotes (`none` when
the number is too big for a DOUBLE); floating point is not modelled. -/
structure Env where
  uuid : UUID
  dbFault : Option String
  formatDouble : Bytes → Option Bytes

/-- The statement `INSERT INTO albums (albumID, image, profile) VALUES (?, ?, ?)` run
by `db.Exec`: it fails when the connection fails, when the column `profile JSON`
refuses the profile text as invalid JSON, and when the UNIQUE index on `albumID`
already holds the key; otherwise the row is added, its profile being the document
the text denotes. -/
def execInsertAlbum (fault : Option String) (formatDouble : Bytes → Option Bytes)
    (t : Albums) (albumID : String) (image profile : Bytes) : Except GoError Albums :=
  match fault with
  | some msg => .error (.other msg)
  | none =>
    match mysqlJSON formatDouble profile with
    | none => .error (.invalidJSON "albums.profile")
    | some document =>
      if t.any (fun r => r.albumID == albumID) then
        .error (.duplicateEntry albumID "albums.albumID")
      else .ok (t ++ [⟨albumID, image, document⟩])

/-- The call `db.QueryRow("SELECT profile FROM albums WHERE albumID = ?", id).Scan(&p)`:
the profile of the first matching row, as the server prints the stored document,
`sql.ErrNoRows` when no row matches, the error of the connection when it fails. -/
def queryProfile (fault : Option String) (t : Albums) (albumID : String) :
    Except GoError Bytes :=
  match fault with
  | some msg => .error (.other msg)
  | none =>
    match t.find? (fun r => r.albumID == albumID) with
    | some r => .ok r.profile
    | none => .error .errNoRows

/-- The handler `healthCheck`. -/
def healthCheck (_env : Env) (_c : Request) (db : Albums) : Response × Albums :=
  (cJSON 200 [("status", .str "ok")], db)

/-- The handler `doPost` of `POST /albums`. -/
def doPost (env : Env) (c : Request) (db : Albums) : Response × Albums :=
  match c.formFile "image" with
  | .error _ => (cJSON 400 (errorBody "Image file is required"), db)
  | .ok file =>
    match file.readAll with
    | .error _ => (cJSON 500 (errorBody "Failed to read image file"), db)
    | .ok fileBytes =>
      let profileData := c.postForm "profile"
      let albumID := env.uuid.String
      match execInsertAlbum env.dbFault env.formatDouble db albumID fileBytes profileData with
      | .error _ => (cJSON 500 (errorBody "Failed to insert album into database"), db)
      | .ok db' =>
        (cJSON 201 [("albumID", .str albumID),
          ("imageSize", .str (stringOfInt fileBytes.length))], db')

/-- The handler `goGet` of `GET /albums/:albumID`. -/
def goGet (env : Env) (c : Request) (db : Albums) : Response × Albums :=
  let albumID := c.param "albumID"
  if albumID = "" then (cJSON 400 (errorBody "Album ID is required"), db)
  else
    match queryProfile env.dbFault db albumID with
    | .error err =>
      if err = .errNoRows then (cJSON 404 (errorBody "Album not found"), db)
      else (cJSON 500 (errorBody "Failed to fetch album"), db)
    | .ok profileData => (cData 200 "application/json" profileData, db)

/-- A request carrying an image of the given content and a profile field. -/
def uploadRequest (image profile : Bytes) : Request :=
  ⟨fun name => if name = "image" then .ok ⟨.ok image⟩ else .error (.other "http: no such file"),
   fun key => if key = "profile" then profile else [],
   fun _ => ""⟩

/-- A request for `GET /albums/:albumID` with the given path parameter. -/
def getRequest (albumID : String) : Request :=
  ⟨fun _ => .error (.other "http: no such file"),
   fun _ => [],
   fun key => if key = "albumID" then albumID else ""⟩

/-- The UUID whose sixteen bytes are all zero. -/
def zeroUUID : UUID := fun _ => 0

/-! ## The counter service, `main-backup.go` -/

namespace Backup

/-- One row of `test_table (id INT AUTO_INCREMENT PRIMARY KEY, some_value INT)`. -/
structure TestRow where
  id : Nat
  some_value : Nat
  deriving DecidableEq, Repr

/-- The table `test_table`: its rows, oldest first, and the AUTO_INCREMENT counter,
which is the identifier the next insert is given. -/
structure TestTable where
  rows : List TestRow
  autoIncrement : Nat
  deriving DecidableEq, Repr

/-- What lies outside the request and the table during one call of a handler of the
counter service: the value of `FLOOR(RAND()*1000)`, and the error, if any, with
which the connection or the server fails the SQL statement of this call. -/
structure Env where
  rand : Fin 1000
  dbFault : Option String

/-- The statement `INSERT INTO test_table (some_value) VALUES (FLOOR(RAND()*1000))` run
by `db.Exec`, with the `LastInsertId` of its result.  The new row gets the value of
the AUTO_INCREMENT counter, which then advances and stops at the largest INT; the
PRIMARY KEY index refuses an identifier that is already in the table. -/
def execInsertRow (fault : Option String) (value : Nat) (t : TestTable) :
    Except GoError (Nat × TestTable) :=
  match fault with
  | some msg => .error (.other msg)
  | none =>
    if t.rows.any (fun r => r.id == t.autoIncrement) then
      .error (.duplicateEntry (Nat.repr t.autoIncrement) "test_table.PRIMARY")
    else
      .ok (t.autoIncrement,
        ⟨t.rows ++ [⟨t.autoIncrement, value⟩], min (t.autoIncrement + 1) 2147483647⟩)

/-- The call `db.QueryRow("SELECT COUNT(*) FROM test_table").Scan(&cnt)`. -/
def queryCount (fault : Option String) (t : TestTable) : Except GoError Int :=
  match fault with
  | some msg => .error (.other msg)
  | none => .ok (t.rows.length : Int)

/-- The handler of `GET /health`. -/
def getHealth (_env : Env) (_c : Request) (db : TestTable) : Response × TestTable :=
  (cJSON 200 [("status", .str "ok")], db)

/-- The handler of `GET /count`. -/
def getCount (env : Env) (_c : Request) (db : TestTable) : Response × TestTable :=
  match queryCount env.dbFault db with
  | .error err => (cJSON 500 (errorBody err.Error), db)
  | .ok cnt => (cJSON 200 [("row_count", .int cnt)], db)

/-- The handler of `POST /insert`. -/
def postInsert (env : Env) (_c : Request) (db : TestTable) : Response × TestTable :=
  match execInsertRow env.dbFault env.rand db with
  | .error err => (cJSON 500 (errorBody err.Error), db)
  | .ok (id, db') => (cJSON 200 [("message", .str "inserted"), ("row_id", .int (id : Int))], db')

/-- A sequence of calls of `POST /insert` with nothing in between: the responses, in
order, and the table after the last call. -/
def postInsertMany : List (Env × Request) → TestTable → List Response × TestTable
  | [], db => ([], db)
  | (env, c) :: calls, db =>
    let first := postInsert env c db
    let rest := postInsertMany calls first.2
    (first.1 :: rest.1, rest.2)

end Backup

/-! ## Relating two album stores -/

/-- Two album stores that differ only in the image bytes of their records: the same
records in the same order, with equal identifiers and equal profiles. -/
def SameUpToImages (s₁ s₂ : Albums) : Prop :=
  List.Forall₂ (fun a b => a.albumID = b.albumID ∧ a.profile = b.profile) s₁ s₂

/-! ## Lemmas on the database model -/

theorem UUID.String_ne_empty (u : UUID) : u.String ≠ "" := by
  intro h
  have := congrArg String.length h
  simp [UUID.String, hexEncode, hexByte] at this

theorem stringOfInt_length (n : Nat) : (stringOfInt n).length = 1 := by
  unfold stringOfInt
  split <;> rfl

theorem decimalString_length (n : Nat) (h : 10 ≤ n) : 2 ≤ (decimalString n).length := by
  obtain ⟨f, rfl⟩ : ∃ f, n = f + 1 := ⟨n - 1, by omega⟩
  have hdiv : (f + 1) / 10 ≠ 0 := by omega
  simp only [decimalString, Nat.repr, Nat.toDigits, List.asString, String.length]
  simp only [Nat.toDigitsCore, hdiv, if_false]
  split
  · simp
  · rw [Nat.toDigitsCore_lens_eq, Nat.toDigitsCore_lens_eq]
    omega

/-- The conversion `string(n)` never yields the decimal representation of `n`. -/
theorem stringOfInt_ne_decimalString (n : Nat) : stringOfInt n ≠ decimalString n := by
  intro h
  by_cases hn : n < 10
  · interval_cases n <;> revert h <;> decide
  · have h₁ := stringOfInt_length n
    have h₂ := decimalString_length n (by omega)
    rw [h] at h₁
    omega

/-- What `doPost` answers on success: the rendered UUID and `string(len(fileBytes))`,
and the store with the new record at its end. -/
theorem doPost_success (env : Env) (c : Request) (db db' : Albums) (file : MultipartFile)
    (fileBytes : Bytes) (hfile : c.formFile "image" = .ok file)
    (hread : file.readAll = .ok fileBytes)
    (hexec : execInsertAlbum env.dbFault env.formatDouble db env.uuid.String fileBytes
      (c.postForm "profile") = .ok db') :
    doPost env c db = (cJSON 201 [("albumID", .str env.uuid.String),
      ("imageSize", .str (stringOfInt fileBytes.length))], db') := by
  simp [doPost, hfile, hread, hexec]

/-- The column refuses the empty text, which is what `c.PostForm` yields for an
absent profile field. -/
theorem mysqlJSON_empty (formatDouble : Bytes → Option Bytes) :
    mysqlJSON formatDouble [] = none := rfl

/-- Some texts and what the column makes of them: the bytes 1, 2, 255 and the text
`[1,]` are refused; ` [1,2] ` is printed as `[1, 2]`; in `{"bb":1,"a":2,"a":3}` the
keys are put in order and the last of two equal keys is kept, giving
`{"a": 3, "bb": 1}`; the string `"A\/"` is printed as `"A/"`. -/
theorem mysqlJSON_samples :
    mysqlJSON formatDoubleAsWritten [1, 2, 255] = none
      ∧ mysqlJSON formatDoubleAsWritten [91, 49, 44, 93] = none
      ∧ mysqlJSON formatDoubleAsWritten [32, 91, 49, 44, 50, 93, 32]
        = some [91, 49, 44, 32, 50, 93]
      ∧ mysqlJSON formatDoubleAsWritten
          [123, 34, 98, 98, 34, 58, 49, 44, 34, 97, 34, 58, 50, 44, 34, 97, 34, 58, 51, 125]
        = some [123, 34, 97, 34, 58, 32, 51, 44, 32, 34, 98, 98, 34, 58, 32, 49, 125]
      ∧ mysqlJSON formatDoubleAsWritten [34, 92, 117, 48, 48, 52, 49, 92, 47, 34]
        = some [34, 65, 47, 34] := by
  decide

theorem execInsertAlbum_ok {fault : Option String} {formatDouble : Bytes → Option Bytes}
    {t t' : Albums} {albumID : String} {image profile : Bytes}
    (h : execInsertAlbum fault formatDouble t albumID image profile = .ok t') :
    fault = none ∧ t.any (fun r => r.albumID == albumID) = false
      ∧ ∃ document, mysqlJSON formatDouble profile = some document
        ∧ t' = t ++ [⟨albumID, image, document⟩] := by
  unfold execInsertAlbum at h
  cases fault with
  | some msg => simp at h
  | none =>
    cases hjson : mysqlJSON formatDouble profile with
    | none => simp [hjson] at h
    | some document =>
      by_cases hany : t.any (fun r => r.albumID == albumID) = true
      · simp [hjson, hany] at h
      · simp only [hjson, hany] at h
        simp only [Bool.false_eq_true, if_false, Except.ok.injEq] at h
        exact ⟨rfl, by simpa using hany, document, rfl, h.symm⟩

theorem queryProfile_fresh_append (t : Albums) (albumID : String) (image profile : Bytes)
    (hfresh : t.any (fun r => r.albumID == albumID) = false) :
    queryProfile none (t ++ [⟨albumID, image, profile⟩]) albumID = .ok profile := by
  have hnone : t.find? (fun r => r.albumID == albumID) = none := by
    rw [List.find?_eq_none]
    intro r hr
    have := List.any_eq_false.mp hfresh r hr
    simpa using this
  simp [queryProfile, List.find?_append, hnone]

theorem queryProfile_absent (t : Albums) (albumID : String)
    (habsent : ∀ r ∈ t, r.albumID ≠ albumID) :
    queryProfile none t albumID = .error .errNoRows := by
  have hnone : t.find? (fun r => r.albumID == albumID) = none := by
    rw [List.find?_eq_none]
    intro r hr
    simpa using habsent r hr
  simp [queryProfile, hnone]

theorem queryProfile_sameUpToImages (fault : Option String) (s₁ s₂ : Albums)
    (h : SameUpToImages s₁ s₂) (albumID : String) :
    queryProfile fault s₁ albumID = queryProfile fault s₂ albumID := by
  cases fault with
  | some msg => rfl
  | none =>
    unfold SameUpToImages at h
    induction h with
    | nil => rfl
    | @cons a b l₁ l₂ hab _ ih =>
      unfold queryProfile at ih ⊢
      simp only [List.find?_cons, hab.1]
      by_cases hk : (b.albumID == albumID) = true
      · simp [hk, hab.2]
      · simp only [hk]
        exact ih

theorem Backup.postInsertMany_length (calls : List (Backup.Env × Request)) :
    ∀ db : Backup.TestTable,
      (∀ r ∈ (Backup.postInsertMany calls db).1, r.status = 200) →
      (Backup.postInsertMany calls db).2.rows.length = db.rows.length + calls.length := by
  induction calls with
  | nil => intro db _; simp [Backup.postInsertMany]
  | cons call calls ih =>
    intro db hall
    obtain ⟨env, c⟩ := call
    simp only [Backup.postInsertMany, List.mem_cons, forall_eq_or_imp] at hall ⊢
    have hrest := ih _ hall.2
    rw [hrest]
    have hfirst := hall.1
    unfold Backup.postInsert Backup.execInsertRow at hfirst ⊢
    cases hf : env.dbFault with
    | some msg => simp [hf, cJSON] at hfirst
    | none =>
      by_cases hdup : db.rows.any (fun r => r.id == db.autoIncrement) = true
      · simp [hf, hdup, cJSON] at hfirst
      · simp [hf, hdup]
        omega

/-- A profile text that the column refuses is never stored: `doPost` does not
answer 201 and leaves the store as it is. -/
theorem doPost_invalid_profile (env : Env) (c : Request) (db : Albums)
    (hjson : mysqlJSON env.formatDouble (c.postForm "profile") = none) :
    (doPost env c db).1.status ≠ 201 ∧ (doPost env c db).2 = db := by
  unfold doPost
  cases hff : c.formFile "image" with
  | error e => simp [hff, cJSON]
  | ok file =>
    cases hra : file.readAll with
    | error e => simp [hff, hra, cJSON]
    | ok fileBytes =>
      cases hex : execInsertAlbum env.dbFault env.formatDouble db env.uuid.String fileBytes
          (c.postForm "profile") with
      | error e => simp [hff, hra, hex, cJSON]
      | ok db' =>
        obtain ⟨_, _, document, hdoc, _⟩ := execInsertAlbum_ok hex
        rw [hjson] at hdoc
        simp at hdoc

/-! ## The album service: claims -/

/-- C1 (the code departs from it): `doPost` on an image of 65 bytes, posted with the
empty JSON object as profile, answers 201 with `imageSize` equal to the
one-character string `A`, the character with code point 65, while the decimal
representation of 65 is the two-character string `65`. -/
theorem doPost_imageSize_of_65_bytes :
    (doPost ⟨zeroUUID, none, formatDoubleAsWritten⟩
        (uploadRequest (List.replicate 65 0) [123, 125]) []).1
        = cJSON 201 [("albumID", .str "00000000-0000-0000-0000-000000000000"),
            ("imageSize", .str "A")]
      ∧ decimalString 65 = "65"
      ∧ stringOfInt 65 ≠ decimalString 65 := by
  decide

/-- C2 (as stated, false): the profile text `{"a":1}`, bytes 123 34 97 34 58 49 125,
is valid JSON and `doPost` stores it with answer 201; the following `goGet` for the
returned identifier answers 200 with the body `{"a": 1}`, bytes
123 34 97 34 58 32 49 125, in which the column `profile JSON` has put a space
after the colon: the body is not byte for byte the text that was posted. -/
theorem doPost_goGet_not_verbatim :
    (doPost ⟨zeroUUID, none, formatDoubleAsWritten⟩
        (uploadRequest [7, 8, 9] [123, 34, 97, 34, 58, 49, 125]) []).1
        = cJSON 201 [("albumID", .str "00000000-0000-0000-0000-000000000000"),
            ("imageSize", .str (stringOfInt 3))]
      ∧ (goGet ⟨zeroUUID, none, formatDoubleAsWritten⟩
          (getRequest "00000000-0000-0000-0000-000000000000")
          (doPost ⟨zeroUUID, none, formatDoubleAsWritten⟩
            (uploadRequest [7, 8, 9] [123, 34, 97, 34, 58, 49, 125]) []).2).1
        = ⟨200, "application/json", .data [123, 34, 97, 34, 58, 32, 49, 125]⟩
      ∧ (goGet ⟨zeroUUID, none, formatDoubleAsWritten⟩
          (getRequest "00000000-0000-0000-0000-000000000000")
          (doPost ⟨zeroUUID, none, formatDoubleAsWritten⟩
            (uploadRequest [7, 8, 9] [123, 34, 97, 34, 58, 49, 125]) []).2).1.body
        ≠ .data ((uploadRequest [7, 8, 9] [123, 34, 97, 34, 58, 49, 125]).postForm "profile") := by
  decide

/-- C2 (amended): round trip up to the rendering of the column.  When `doPost`
answers 201 with identifier `id`, the posted profile text is valid JSON, and a
following `goGet` for `id` on the resulting store, answered by the database,
returns status 200, content type `application/json` and, as body, the text the
column `profile JSON` prints for the document that the posted text denotes; the
store is left as it is.  The body is the posted text itself exactly when that text
is already in the form the column prints. -/
theorem doPost_goGet_roundtrip (env : Env) (c : Request) (db : Albums) (id size : String)
    (hpost : (doPost env c db).1 = cJSON 201 [("albumID", .str id), ("imageSize", .str size)])
    (env' : Env) (c' : Request) (hparam : c'.param "albumID" = id)
    (hdb : env'.dbFault = none) :
    ∃ document, mysqlJSON env.formatDouble (c.postForm "profile") = some document
      ∧ goGet env' c' (doPost env c db).2
        = (⟨200, "application/json", .data document⟩, (doPost env c db).2)
      ∧ ((goGet env' c' (doPost env c db).2).1.body = .data (c.postForm "profile")
        ↔ document = c.postForm "profile") := by
  unfold doPost at hpost ⊢
  cases hff : c.formFile "image" with
  | error e => simp [hff, cJSON] at hpost
  | ok file =>
    cases hra : file.readAll with
    | error e => simp [hff, hra, cJSON] at hpost
    | ok fileBytes =>
      cases hex : execInsertAlbum env.dbFault env.formatDouble db env.uuid.String fileBytes
          (c.postForm "profile") with
      | error e => simp [hff, hra, hex, cJSON] at hpost
      | ok db' =>
        simp only [hff, hra, hex] at hpost ⊢
        have hid : env.uuid.String = id := by
          simp [cJSON] at hpost
          exact hpost.1
        obtain ⟨_, hfresh, document, hjson, hdb'⟩ := execInsertAlbum_ok hex
        have hne : c'.param "albumID" ≠ "" := by
          rw [hparam, ← hid]
          exact UUID.String_ne_empty env.uuid
        have hget : goGet env' c' db'
            = (⟨200, "application/json", .data document⟩, db') := by
          unfold goGet
          simp only [hne, if_false, hdb, hparam, ← hid, hdb']
          rw [queryProfile_fresh_append db env.uuid.String fileBytes document hfresh]
          rfl
        refine ⟨document, hjson, hget, ?_⟩
        rw [hget]
        simp

/-- Witness of C2 (amended): the profile text `{"b":1,"a":2}` posted with a
three-byte image to the empty store is read back with the keys in order and a
space after each colon and comma, as `{"a": 2, "b": 1}`. -/
theorem doPost_goGet_roundtrip_witness :
    goGet ⟨zeroUUID, none, formatDoubleAsWritten⟩
        (getRequest "00000000-0000-0000-0000-000000000000")
        (doPost ⟨zeroUUID, none, formatDoubleAsWritten⟩ (uploadRequest [7, 8, 9]
          [123, 34, 98, 34, 58, 49, 44, 34, 97, 34, 58, 50, 125]) []).2
      = (⟨200, "application/json",
          .data [123, 34, 97, 34, 58, 32, 50, 44, 32, 34, 98, 34, 58, 32, 49, 125]⟩,
        (doPost ⟨zeroUUID, none, formatDoubleAsWritten⟩ (uploadRequest [7, 8, 9]
          [123, 34, 98, 34, 58, 49, 44, 34, 97, 34, 58, 50, 125]) []).2) := by
  obtain ⟨document, hjson, hget, _⟩ :=
    doPost_goGet_roundtrip ⟨zeroUUID, none, formatDoubleAsWritten⟩
      (uploadRequest [7, 8, 9] [123, 34, 98, 34, 58, 49, 44, 34, 97, 34, 58, 50, 125]) []
      "00000000-0000-0000-0000-000000000000" (stringOfInt 3) (by decide)
      ⟨zeroUUID, none, formatDoubleAsWritten⟩
      (getRequest "00000000-0000-0000-0000-000000000000") (by decide) rfl
  have hprinted : mysqlJSON formatDoubleAsWritten
      ((uploadRequest [7, 8, 9]
        [123, 34, 98, 34, 58, 49, 44, 34, 97, 34, 58, 50, 125]).postForm "profile")
      = some [123, 34, 97, 34, 58, 32, 50, 44, 32, 34, 98, 34, 58, 32, 49, 125] := by
    decide
  rw [hprinted] at hjson
  rw [hget, ← Option.some.inj hjson]

/-- C3 (as stated, false): when the insert fails with the error `connection refused`,
the `error` member of the response of `doPost` is the fixed text
`Failed to insert album into database`, not the text of that error. -/
theorem doPost_error_text_not_surfaced :
    execInsertAlbum (some "connection refused") formatDoubleAsWritten [] zeroUUID.String [] []
        = .error (.other "connection refused")
      ∧ (doPost ⟨zeroUUID, some "connection refused", formatDoubleAsWritten⟩ (uploadRequest [] []) []).1
        = cJSON 500 (errorBody "Failed to insert album into database")
      ∧ (doPost ⟨zeroUUID, some "connection refused", formatDoubleAsWritten⟩ (uploadRequest [] []) []).1.body
        ≠ .json (errorBody (GoError.other "connection refused").Error) :=
  ⟨rfl, by decide, by decide⟩

/-- C3 (amended): in every error case of `doPost` the response is fixed by the step
that failed and does not depend on the underlying error: 400 with
`Image file is required` when `FormFile` fails, 500 with `Failed to read image file`
when reading the file fails, 500 with `Failed to insert album into database` when
the insert fails; in each case the store is unchanged. -/
theorem doPost_error_cases (env : Env) (c : Request) (db : Albums) :
    (∀ e, c.formFile "image" = .error e →
        doPost env c db = (cJSON 400 (errorBody "Image file is required"), db))
      ∧ (∀ file e, c.formFile "image" = .ok file → file.readAll = .error e →
        doPost env c db = (cJSON 500 (errorBody "Failed to read image file"), db))
      ∧ (∀ file fileBytes e, c.formFile "image" = .ok file → file.readAll = .ok fileBytes →
        execInsertAlbum env.dbFault env.formatDouble db env.uuid.String fileBytes
          (c.postForm "profile") = .error e →
        doPost env c db = (cJSON 500 (errorBody "Failed to insert album into database"), db)) := by
  refine ⟨?_, ?_, ?_⟩
  · intro e h
    simp [doPost, h]
  · intro file e h₁ h₂
    simp [doPost, h₁, h₂]
  · intro file fileBytes e h₁ h₂ h₃
    simp [doPost, h₁, h₂, h₃]

/-- Witness of C3 (amended): an insert refused by the connection. -/
theorem doPost_error_cases_witness :
    doPost ⟨zeroUUID, some "connection refused", formatDoubleAsWritten⟩ (uploadRequest [] []) []
      = (cJSON 500 (errorBody "Failed to insert album into database"), []) :=
  (doPost_error_cases ⟨zeroUUID, some "connection refused", formatDoubleAsWritten⟩ (uploadRequest [] []) []).2.2
    ⟨.ok []⟩ [] (.other "connection refused") rfl rfl rfl

/-- C4: when `FormFile("image")` fails, `doPost` answers 400 and the album store is
unchanged, whatever the profile field and the rest of the request are. -/
theorem doPost_without_image (env : Env) (c : Request) (db : Albums) (e : GoError)
    (h : c.formFile "image" = .error e) :
    (doPost env c db).1.status = 400 ∧ (doPost env c db).2 = db := by
  simp [doPost, h, cJSON]

/-- Witness of C4: a request with no form file, against a store of one record. -/
theorem doPost_without_image_witness :
    (doPost ⟨zeroUUID, none, formatDoubleAsWritten⟩ (getRequest "") [⟨"a", [1], [123, 125]⟩]).1.status = 400
      ∧ (doPost ⟨zeroUUID, none, formatDoubleAsWritten⟩ (getRequest "") [⟨"a", [1], [123, 125]⟩]).2 = [⟨"a", [1], [123, 125]⟩] :=
  doPost_without_image ⟨zeroUUID, none, formatDoubleAsWritten⟩ (getRequest "") [⟨"a", [1], [123, 125]⟩]
    (.other "http: no such file") rfl

/-- C5: for every album store and every non-empty identifier that is the key of no
stored record, `goGet`, answered by the database, returns 404 with the JSON body
`error: Album not found`, hence neither 200 nor 500, and leaves the store as it is. -/
theorem goGet_unknown_id (env : Env) (c : Request) (db : Albums)
    (hne : c.param "albumID" ≠ "")
    (habsent : ∀ r ∈ db, r.albumID ≠ c.param "albumID")
    (hdb : env.dbFault = none) :
    goGet env c db = (cJSON 404 (errorBody "Album not found"), db)
      ∧ (goGet env c db).1.status ≠ 200 ∧ (goGet env c db).1.status ≠ 500 := by
  have h : goGet env c db = (cJSON 404 (errorBody "Album not found"), db) := by
    unfold goGet
    simp only [hne, if_false, hdb]
    rw [queryProfile_absent db _ habsent]
    rfl
  rw [h]
  exact ⟨rfl, by simp [cJSON], by simp [cJSON]⟩

/-- Witness of C5: the identifier `b` against a store whose only key is `a`. -/
theorem goGet_unknown_id_witness :
    goGet ⟨zeroUUID, none, formatDoubleAsWritten⟩ (getRequest "b") [⟨"a", [1], [123, 125]⟩]
        = (cJSON 404 (errorBody "Album not found"), [⟨"a", [1], [123, 125]⟩])
      ∧ (goGet ⟨zeroUUID, none, formatDoubleAsWritten⟩ (getRequest "b") [⟨"a", [1], [123, 125]⟩]).1.status ≠ 200
      ∧ (goGet ⟨zeroUUID, none, formatDoubleAsWritten⟩ (getRequest "b") [⟨"a", [1], [123, 125]⟩]).1.status ≠ 500 :=
  goGet_unknown_id ⟨zeroUUID, none, formatDoubleAsWritten⟩ (getRequest "b") [⟨"a", [1], [123, 125]⟩] (by decide)
    (by decide) rfl

/-- C7: on two album stores that differ only in the image bytes of their records,
`goGet` writes the same response (status, content type and body) for every
request, whatever the connection does. -/
theorem goGet_independent_of_images (env : Env) (c : Request) (s₁ s₂ : Albums)
    (h : SameUpToImages s₁ s₂) :
    (goGet env c s₁).1 = (goGet env c s₂).1 := by
  unfold goGet
  simp only [queryProfile_sameUpToImages env.dbFault s₁ s₂ h (c.param "albumID")]
  split
  · rfl
  · split
    · split <;> rfl
    · rfl

/-- Witness of C7: two stores holding the record `a` with different images. -/
theorem goGet_independent_of_images_witness :
    (goGet ⟨zeroUUID, none, formatDoubleAsWritten⟩ (getRequest "a") [⟨"a", [1, 1], [123, 125]⟩]).1
      = (goGet ⟨zeroUUID, none, formatDoubleAsWritten⟩ (getRequest "a") [⟨"a", [9], [123, 125]⟩]).1 :=
  goGet_independent_of_images ⟨zeroUUID, none, formatDoubleAsWritten⟩ (getRequest "a") [⟨"a", [1, 1], [123, 125]⟩]
    [⟨"a", [9], [123, 125]⟩] (List.Forall₂.cons ⟨rfl, rfl⟩ List.Forall₂.nil)

/-! ## The counter service: claims -/

/-- C6: starting from a table of `K` rows, after `N` calls of `POST /insert` in a
row that all answered 200, `GET /count`, answered by the database, returns status
200 with `row_count` equal to `K + N`. -/
theorem getCount_after_inserts (calls : List (Backup.Env × Request)) (db : Backup.TestTable)
    (K N : Nat) (hK : db.rows.length = K) (hN : calls.length = N)
    (hall : ∀ r ∈ (Backup.postInsertMany calls db).1, r.status = 200)
    (env : Backup.Env) (c : Request) (hdb : env.dbFault = none) :
    (Backup.getCount env c (Backup.postInsertMany calls db).2).1
      = cJSON 200 [("row_count", .int ((K + N : Nat) : Int))] := by
  have hlen := Backup.postInsertMany_length calls db hall
  simp [Backup.getCount, Backup.queryCount, hdb, hlen, hK, hN]

/-- Witness of C6: two inserts into a table of one row, then a count of three. -/
theorem getCount_after_inserts_witness :
    (Backup.getCount ⟨0, none⟩ (getRequest "")
        (Backup.postInsertMany [(⟨5, none⟩, getRequest ""), (⟨7, none⟩, getRequest "")]
          ⟨[⟨1, 42⟩], 2⟩).2).1
      = cJSON 200 [("row_count", .int ((1 + 2 : Nat) : Int))] :=
  getCount_after_inserts [(⟨5, none⟩, getRequest ""), (⟨7, none⟩, getRequest "")]
    ⟨[⟨1, 42⟩], 2⟩ 1 2 rfl rfl (by decide) ⟨0, none⟩ (getRequest "") rfl

/-- C8: when the insert statement returns no error, `POST /insert` answers 200 with
`message` equal to `inserted` and `row_id` equal to the identifier of the row the
database has just added; when the statement fails with error `e`, it answers 500
with `error` equal to the text of `e` and the table is unchanged. -/
theorem postInsert_response (env : Backup.Env) (c : Request) (db : Backup.TestTable) :
    (∀ id db', Backup.execInsertRow env.dbFault env.rand db = .ok (id, db') →
        Backup.postInsert env c db
            = (cJSON 200 [("message", .str "inserted"), ("row_id", .int (id : Int))], db')
          ∧ db'.rows = db.rows ++ [⟨id, env.rand⟩])
      ∧ (∀ e, Backup.execInsertRow env.dbFault env.rand db = .error e →
        Backup.postInsert env c db = (cJSON 500 (errorBody e.Error), db)) := by
  constructor
  · intro id db' h
    refine ⟨by simp [Backup.postInsert, h], ?_⟩
    unfold Backup.execInsertRow at h
    cases hf : env.dbFault with
    | some msg => simp [hf] at h
    | none =>
      by_cases hdup : db.rows.any (fun r => r.id == db.autoIncrement) = true
      · simp [hf, hdup] at h
      · simp only [hf, hdup, Bool.false_eq_true, if_false, Except.ok.injEq, Prod.mk.injEq] at h
        rw [← h.2, ← h.1]
  · intro e h
    simp [Backup.postInsert, h]

/-- Witness of C8: an insert into a table of one row whose counter stands at 2. -/
theorem postInsert_response_witness :
    Backup.postInsert ⟨5, none⟩ (getRequest "") ⟨[⟨1, 42⟩], 2⟩
        = (cJSON 200 [("message", .str "inserted"), ("row_id", .int 2)],
            ⟨[⟨1, 42⟩, ⟨2, 5⟩], 3⟩)
      ∧ Backup.postInsert ⟨5, some "bad connection"⟩ (getRequest "") ⟨[⟨1, 42⟩], 2⟩
        = (cJSON 500 (errorBody "bad connection"), ⟨[⟨1, 42⟩], 2⟩) :=
  ⟨((postInsert_response ⟨5, none⟩ (getRequest "") ⟨[⟨1, 42⟩], 2⟩).1 2
      ⟨[⟨1, 42⟩, ⟨2, 5⟩], 3⟩ rfl).1,
    (postInsert_response ⟨5, some "bad connection"⟩ (getRequest "") ⟨[⟨1, 42⟩], 2⟩).2
      (.other "bad connection") rfl⟩

/-- C9: `GET /count` answers 200 with `row_count` equal to the number of rows exactly
when the count query succeeds; when the query fails with error `e` it answers 500
with `error` equal to the text of `e`; the table is unchanged in both cases. -/
theorem getCount_response (env : Backup.Env) (c : Request) (db : Backup.TestTable) :
    (Backup.getCount env c db).2 = db
      ∧ (∀ cnt, Backup.queryCount env.dbFault db = .ok cnt →
        cnt = (db.rows.length : Int)
          ∧ (Backup.getCount env c db).1 = cJSON 200 [("row_count", .int cnt)])
      ∧ (∀ e, Backup.queryCount env.dbFault db = .error e →
        (Backup.getCount env c db).1 = cJSON 500 (errorBody e.Error))
      ∧ ((Backup.getCount env c db).1.status = 200
        ↔ ∃ cnt, Backup.queryCount env.dbFault db = .ok cnt) := by
  cases hf : env.dbFault with
  | some msg => simp [Backup.getCount, Backup.queryCount, hf, cJSON]
  | none =>
    simp only [Backup.getCount, Backup.queryCount, hf, cJSON]
    refine ⟨trivial, ?_, ?_, ?_⟩
    · intro cnt h
      simp only [Except.ok.injEq] at h
      exact ⟨h.symm, by rw [h]⟩
    · intro e h
      simp at h
    · simp

/-- Witness of C9: a count over two rows, and a count on a failed connection. -/
theorem getCount_response_witness :
    (Backup.getCount ⟨0, none⟩ (getRequest "") ⟨[⟨1, 42⟩, ⟨2, 5⟩], 3⟩).1
        = cJSON 200 [("row_count", .int 2)]
      ∧ (Backup.getCount ⟨0, some "bad connection"⟩ (getRequest "") ⟨[⟨1, 42⟩, ⟨2, 5⟩], 3⟩).1
        = cJSON 500 (errorBody "bad connection") :=
  ⟨((getCount_response ⟨0, none⟩ (getRequest "") ⟨[⟨1, 42⟩, ⟨2, 5⟩], 3⟩).2.1 2 rfl).2,
    (getCount_response ⟨0, some "bad connection"⟩ (getRequest "")
      ⟨[⟨1, 42⟩, ⟨2, 5⟩], 3⟩).2.2.1 (.other "bad connection") rfl⟩

/-! ## Both services: the health handler -/

/-- C10: in both services the health handler answers status 200 with the JSON body
`status: ok` for every request, every table and every behaviour of the database
connection (a failing one included), and leaves the table as it is. -/
theorem health_always_ok :
    (∀ (env : Env) (c : Request) (db : Albums),
        healthCheck env c db = (cJSON 200 [("status", .str "ok")], db))
      ∧ (∀ (env : Backup.Env) (c : Request) (db : Backup.TestTable),
        Backup.getHealth env c db = (cJSON 200 [("status", .str "ok")], db))
      ∧ (cJSON 200 [("status", .str "ok")]).status = 200
      ∧ (cJSON 200 [("status", .str "ok")]).body = .json [("status", .str "ok")] :=
  ⟨fun _ _ _ => rfl, fun _ _ _ => rfl, rfl, rfl⟩

end AwsGoServer
